import Mathlib

/-!
Verification of the device-setup and measurement-plan logic of the
`bits2511` instrument package.

The Python sources embedded here are:

* `src/bits2511/plans/gp_device_setup.py` — the eight per-device setup
  steps and the fault-tolerant sequencer `_custom_controls_setup`;
* `src/bits2511/plans/rate_effect_plan.py` — the `rate_effect` sweep.

The embedding is a trace semantics: every observable action of a step
(log records, `bps.mv` / `.put` writes, `wait_for_connection`,
`bps.sleep`, external operation calls, registry registration, namespace
export, `bp.count` batches) becomes an `Event`.  A step maps a system
state `Sys` (the ophyd registry's membership, the scaler's current
first-channel name, the stream of uniform random draws, and a table of
which external operations fail and how) to the list of events it emits,
the successor state, and an optional raised failure.  Python exceptions
are classified exactly as the sequencer's `except` clause does:
`ComponentNotFound`, `TimeoutError`, or anything else.  Numeric values
are modelled as exact rationals.
-/

/-- Failure kinds, as classified by the sequencer's `except` clause:
`ComponentNotFound` (a registry lookup failed), `TimeoutError`
(a `wait_for_connection` timed out), or any other exception kind. -/
inductive Exc where
  | componentNotFound : Exc
  | timeoutError : Exc
  | other : Exc
deriving DecidableEq

/-- A value written to a device field: a string or an exact rational. -/
inductive Val where
  | str : String → Val
  | num : ℚ → Val
deriving DecidableEq

/-- One observable action of a plan. -/
inductive Event where
  | logInfo : String → Event
  | logDebug : String → Event
  | logWarning : String → Event
  | null : Event
  | waitForConnection : String → Event
  | write : String → String → Val → Event
  | localSet : String → String → Val → Event
  | sleep : ℚ → Event
  | callOp : String → List ℚ → Event
  | registryRegister : String → Event
  | exportToMain : String → Event
  | printMsg : String → Event
  | countBatch : String → Nat → ℚ → ℚ → Event
deriving DecidableEq

/-- One entry of the ophyd registry: its name, its labels, whether its
`wait_for_connection` succeeds (otherwise it raises `TimeoutError`), and
whether `steps_per_revolution` is in `dir(·)`. -/
structure RegEntry where
  name : String
  labels : List String
  connects : Bool
  hasStepsPerRev : Bool
deriving DecidableEq

/-- The system state threaded through the setup steps. -/
structure Sys where
  /-- Membership of the ophyd registry (`oregistry`). -/
  registry : List RegEntry
  /-- Current value of `scaler1.channels.chan01.chname`. -/
  chan01Name : String
  /-- The stream of draws of `numpy.random.random()`, each in `[0,1)`. -/
  rands : List ℚ
  /-- External operations that raise, and the kind they raise.  An
  operation absent from this table succeeds. -/
  opFails : List (String × Exc)
  /-- Current value of `scaler1.preset_time`. -/
  presetTime : ℚ
deriving DecidableEq

/-- Result of one setup step: emitted events, successor state, raised
failure (if any). -/
structure StepOut where
  events : List Event
  sys : Sys
  err : Option Exc
deriving DecidableEq

/-- `oregistry["name"]` / `oregistry.find(name=...)`: first registry
entry with the given name, if any. -/
def findDev (s : Sys) (n : String) : Option RegEntry :=
  s.registry.find? (fun e => e.name == n)

/-- `oregistry.findall(label=...)`: all registry entries carrying the
label. -/
def findAll (s : Sys) (label : String) : List RegEntry :=
  s.registry.filter (fun e => e.labels.contains label)

/-- Outcome of invoking an external operation: `some e` when the state's
failure table makes it raise `e`, else `none`. -/
def opResult (s : Sys) (op : String) : Option Exc :=
  match s.opFails.find? (fun p => p.1 == op) with
  | some p => some p.2
  | none => none

/-- The four optional subsystem names of `enable_user_calcs`. -/
def userCalcKeys : List String :=
  ["user_calcouts", "user_calcs", "user_sseqs", "user_transforms"]

/-- The `for key in ...` loop of `enable_user_calcs`: for each key, look
it up with `allow_none=True`; if present, wait for connection (raising
`TimeoutError` on failure), log, and write `1` to its `enable` field. -/
def enableLoop (s : Sys) : List String → List Event × Option Exc
  | [] => ([], none)
  | k :: ks =>
    match findDev s k with
    | none => enableLoop s ks
    | some e =>
      if e.connects then
        let rest := enableLoop s ks
        (Event.waitForConnection k :: Event.logDebug ("Enable " ++ k) ::
          Event.write k "enable" (Val.num 1) :: rest.1, rest.2)
      else
        ([Event.waitForConnection k], some Exc.timeoutError)

/-- Embedding of `enable_user_calcs`. -/
def enable_user_calcs (s : Sys) : StepOut :=
  let r := enableLoop s userCalcKeys
  ⟨Event.logInfo "enable_user_calcs()" :: r.1, s, r.2⟩

/-- Default of the `srev` parameter of `change_motor_srev`. -/
def srevDefault : ℚ := 2000

/-- The `for motor in oregistry.findall(label="motor")` loop of
`change_motor_srev`: motors exposing `steps_per_revolution` get a wait,
a debug log and a write of `srev`; the others are skipped. -/
def srevLoop (srev : ℚ) : List RegEntry → List Event × Option Exc
  | [] => ([], none)
  | m :: ms =>
    if m.hasStepsPerRev then
      if m.connects then
        let rest := srevLoop srev ms
        (Event.waitForConnection m.name ::
          Event.logDebug ("Set " ++ m.name ++ " SREV") ::
          Event.write m.name "steps_per_revolution" (Val.num srev) :: rest.1,
          rest.2)
      else
        ([Event.waitForConnection m.name], some Exc.timeoutError)
    else
      srevLoop srev ms

/-- Embedding of `change_motor_srev` (the sequencer calls it without an
override, i.e. with `srev = srevDefault`). -/
def change_motor_srev (srev : ℚ) (s : Sys) : StepOut :=
  let r := srevLoop srev (findAll s "motor")
  ⟨Event.logInfo "change_motor_srev()" :: r.1, s, r.2⟩

/-- Defaults of `change_noisy_signal_parameters`. -/
def fwhmDefault : ℚ := 3 / 20

/-- Default `peak` bound of `change_noisy_signal_parameters`. -/
def peakDefault : ℚ := 10000

/-- Default `noise` bound of `change_noisy_signal_parameters`. -/
def noiseDefault : ℚ := 2 / 25

/-- The four parameters handed to `setup_lorentzian_swait`. -/
structure LorentzianParams where
  center : ℚ
  width : ℚ
  scale : ℚ
  noise : ℚ
deriving DecidableEq

/-- The four keyword arguments of the `setup_lorentzian_swait` call,
each from its own draw `r1, r2, r3, r4` of `numpy.random.random()`:
`center = 2*r1 - 1`, `width = fwhm*r2`, `scale = peak*(9 + r3)`,
`noise = noise*(0.01 + r4)`. -/
def noisyParams (fwhm peak noise r1 r2 r3 r4 : ℚ) : LorentzianParams :=
  ⟨2 * r1 - 1, fwhm * r2, peak * (9 + r3), noise * (1 / 100 + r4)⟩

/-- Embedding of `change_noisy_signal_parameters`. -/
def change_noisy_signal_parameters (fwhm peak noise : ℚ) (s : Sys) : StepOut :=
  let evs0 := [Event.logInfo "change_noisy_signal_parameters()"]
  match findDev s "m1" with
  | none => ⟨evs0, s, some Exc.componentNotFound⟩
  | some m1 =>
    match findDev s "user_calcs" with
    | none => ⟨evs0, s, some Exc.componentNotFound⟩
    | some uc =>
      if m1.connects then
        if uc.connects then
          let evs1 := evs0 ++
            [Event.waitForConnection "m1", Event.waitForConnection "user_calcs",
             Event.write "user_calcs" "enable" (Val.num 1),
             Event.callOp "user_calcs.calc1.reset" []]
          match opResult s "user_calcs.calc1.reset" with
          | some e => ⟨evs1, s, some e⟩
          | none =>
            let p := noisyParams fwhm peak noise (s.rands.getD 0 0)
              (s.rands.getD 1 0) (s.rands.getD 2 0) (s.rands.getD 3 0)
            let s2 := { s with rands := s.rands.drop 4 }
            let evs2 := evs1 ++
              [Event.callOp "setup_lorentzian_swait"
                [p.center, p.width, p.scale, p.noise]]
            ⟨evs2, s2, opResult s "setup_lorentzian_swait"⟩
        else
          ⟨evs0 ++ [Event.waitForConnection "m1",
            Event.waitForConnection "user_calcs"], s, some Exc.timeoutError⟩
      else
        ⟨evs0 ++ [Event.waitForConnection "m1"], s, some Exc.timeoutError⟩

/-- The six `chname` writes of `setup_scaler1`, in the order of the
single `bps.mv` call. -/
def chnameWrites : List Event :=
  [Event.write "scaler1" "channels.chan01.chname" (Val.str "timebase"),
   Event.write "scaler1" "channels.chan02.chname" (Val.str "I0"),
   Event.write "scaler1" "channels.chan03.chname" (Val.str "scint"),
   Event.write "scaler1" "channels.chan04.chname" (Val.str "diode"),
   Event.write "scaler1" "channels.chan05.chname" (Val.str "I000"),
   Event.write "scaler1" "channels.chan06.chname" (Val.str "I00")]

/-- Labels attached to each registered channel shortcut. -/
def channelLabels : List String := ["channel", "counter"]

/-- Names of the six channel shortcuts, in the order of the
registration loop `(timebase, I0, I00, I000, scint, diode)`. -/
def scalerChannelNames : List String :=
  ["timebase", "I0", "I00", "I000", "scint", "diode"]

/-- Registry entry created for one channel shortcut. -/
def channelEntry (n : String) : RegEntry :=
  ⟨n, channelLabels, true, false⟩

/-- The six entries `setup_scaler1` inserts into the registry. -/
def scalerChannelEntries : List RegEntry :=
  scalerChannelNames.map channelEntry

/-- Events of the registration loop of `setup_scaler1`. -/
def registerEvents : List Event :=
  scalerChannelNames.flatMap (fun n =>
    [Event.logDebug ("Custom scaler channel " ++ n),
     Event.registryRegister n, Event.exportToMain n])

/-- Embedding of `setup_scaler1`. -/
def setup_scaler1 (s : Sys) : StepOut :=
  let evs0 := [Event.logInfo "setup_scaler1()"]
  match findDev s "scaler1" with
  | none => ⟨evs0, s, some Exc.componentNotFound⟩
  | some sc =>
    if sc.connects then
      let evsNaming :=
        if s.chan01Name.length = 0 then
          Event.logInfo "scaler1 has no channel names. Assigning channel names." ::
            chnameWrites ++ [Event.sleep 1]
        else []
      let s1 :=
        if s.chan01Name.length = 0 then { s with chan01Name := "timebase" } else s
      let evs := evs0 ++
        [Event.waitForConnection "scaler1",
         Event.logDebug "Setup custom scaler channels"] ++
        evsNaming ++
        [Event.callOp "scaler1.select_channels" [],
         Event.write "scaler1" "update_rate" (Val.num 20),
         Event.write "scaler1" "channels.chan02.override_signal_name"
           (Val.str "noisy")] ++
        registerEvents
      ⟨evs, { s1 with registry := s1.registry ++ scalerChannelEntries }, none⟩
    else
      ⟨evs0 ++ [Event.waitForConnection "scaler1"], s, some Exc.timeoutError⟩

/-- Default of the `delay` parameter of `setup_shutter`. -/
def shutterDelayDefault : ℚ := 1 / 20

/-- Embedding of `setup_shutter`: `shutter.delay_s = delay` is a local
attribute assignment, not a control-system write. -/
def setup_shutter (delay : ℚ) (s : Sys) : StepOut :=
  let evs0 := [Event.logInfo "setup_shutter()", Event.null,
    Event.logDebug "Setup shutter"]
  match findDev s "shutter" with
  | none => ⟨evs0, s, some Exc.componentNotFound⟩
  | some sh =>
    if sh.connects then
      ⟨evs0 ++ [Event.waitForConnection "shutter",
        Event.localSet "shutter" "delay_s" (Val.num delay)], s, none⟩
    else
      ⟨evs0 ++ [Event.waitForConnection "shutter"], s, some Exc.timeoutError⟩

/-- Embedding of `setup_monochromator`:
`dcm.into_control_range(p_theta=2, p_y=-5, p_z=5)`. -/
def setup_monochromator (s : Sys) : StepOut :=
  let evs0 := [Event.logInfo "setup_monochromator()"]
  match findDev s "dcm" with
  | none => ⟨evs0, s, some Exc.componentNotFound⟩
  | some d =>
    if d.connects then
      ⟨evs0 ++ [Event.waitForConnection "dcm",
        Event.logDebug "Setup the monochromator",
        Event.callOp "dcm.into_control_range" [2, -5, 5]],
       s, opResult s "dcm.into_control_range"⟩
    else
      ⟨evs0 ++ [Event.waitForConnection "dcm"], s, some Exc.timeoutError⟩

/-- Embedding of `setup_temperature_positioner`:
`setup_temperature(setpoint=25, noise=1, rate=5, tol=1, max_change=2,
report_dmov_changes=False)`. -/
def setup_temperature_positioner (s : Sys) : StepOut :=
  let evs0 := [Event.logInfo "setup_temperature_positioner()",
    Event.logDebug "Setup temperature controller (positioner)"]
  match findDev s "temperature" with
  | none => ⟨evs0, s, some Exc.componentNotFound⟩
  | some t =>
    if t.connects then
      ⟨evs0 ++ [Event.waitForConnection "temperature",
        Event.callOp "temperature.setup_temperature" [25, 1, 5, 1, 2, 0]],
       s, opResult s "temperature.setup_temperature"⟩
    else
      ⟨evs0 ++ [Event.waitForConnection "temperature"], s,
        some Exc.timeoutError⟩

/-- Embedding of `setup_area_detectors`.  The registry lookups and the
connection waits happen before the `try:` block; only the imports and
the three simulation sub-steps are inside it, and its `except Exception`
catches every failure kind, printing a message and returning normally. -/
def setup_area_detectors (s : Sys) : StepOut :=
  let evs0 := [Event.logInfo "setup_area_detectors()", Event.null]
  match findDev s "ad_transform" with
  | none => ⟨evs0, s, some Exc.componentNotFound⟩
  | some adt =>
    match findDev s "adsimdet" with
    | none => ⟨evs0, s, some Exc.componentNotFound⟩
    | some adet =>
      if adt.connects then
        if adet.connects then
          let evs1 := evs0 ++
            [Event.waitForConnection "ad_transform",
             Event.logDebug "Setup ad_transform",
             Event.waitForConnection "adsimdet",
             Event.logDebug "Setup adsimdet"]
          let chain :=
            match opResult s "change_ad_simulated_image_parameters" with
            | some _ =>
              [Event.callOp "change_ad_simulated_image_parameters" [],
               Event.printMsg "Peak Dithering setup failed"]
            | none =>
              Event.callOp "change_ad_simulated_image_parameters" [] ::
                match opResult s "dither_ad_peak_position" with
                | some _ =>
                  [Event.callOp "dither_ad_peak_position" [],
                   Event.printMsg "Peak Dithering setup failed"]
                | none =>
                  Event.callOp "dither_ad_peak_position" [] ::
                    Event.logDebug "Setup simulated peak image" ::
                    match opResult s "ad_peak_simulation" with
                    | some _ =>
                      [Event.callOp "ad_peak_simulation" [],
                       Event.printMsg "Peak Dithering setup failed"]
                    | none => [Event.callOp "ad_peak_simulation" []]
          ⟨evs1 ++ chain, s, none⟩
        else
          ⟨evs0 ++ [Event.waitForConnection "ad_transform",
            Event.logDebug "Setup ad_transform",
            Event.waitForConnection "adsimdet"], s, some Exc.timeoutError⟩
      else
        ⟨evs0 ++ [Event.waitForConnection "ad_transform"], s,
          some Exc.timeoutError⟩

/-- Result of running a sequence of steps through the sequencer: the
names of the steps invoked (in invocation order), the concatenated event
trace, the final state, and the propagated failure (if any). -/
structure SeqOut where
  invoked : List String
  events : List Event
  sys : Sys
  err : Option Exc
deriving DecidableEq

/-- The failure kinds the sequencer's
`except (ComponentNotFound, TimeoutError)` clause catches. -/
def nonfatal (e : Exc) : Bool :=
  match e with
  | Exc.componentNotFound => true
  | Exc.timeoutError => true
  | Exc.other => false

/-- The `logger.warning("In setup_devices() ... %s", exinfo)` record. -/
def seqWarning : Event := Event.logWarning "In setup_devices()"

/-- The `for func in functions: try: yield from func() except
(ComponentNotFound, TimeoutError): logger.warning(...)` loop of
`_custom_controls_setup`: a caught failure is logged and the next step
runs from the state the failing step left behind; any other failure
stops the loop and propagates. -/
def runSeq : List (String × (Sys → StepOut)) → Sys → SeqOut
  | [], s => ⟨[], [], s, none⟩
  | (n, f) :: rest, s =>
    let o := f s
    match o.err with
    | none =>
      let r := runSeq rest o.sys
      ⟨n :: r.invoked, o.events ++ r.events, r.sys, r.err⟩
    | some e =>
      if nonfatal e then
        let r := runSeq rest o.sys
        ⟨n :: r.invoked, o.events ++ seqWarning :: r.events, r.sys, r.err⟩
      else
        ⟨[n], o.events, o.sys, some e⟩

/-- The `functions` list of `_custom_controls_setup`, in source order;
parameters take their defaults since each `func()` call passes none. -/
def setupFunctions : List (String × (Sys → StepOut)) :=
  [("enable_user_calcs", enable_user_calcs),
   ("change_motor_srev", change_motor_srev srevDefault),
   ("setup_scaler1", setup_scaler1),
   ("change_noisy_signal_parameters",
     change_noisy_signal_parameters fwhmDefault peakDefault noiseDefault),
   ("setup_shutter", setup_shutter shutterDelayDefault),
   ("setup_monochromator", setup_monochromator),
   ("setup_temperature_positioner", setup_temperature_positioner),
   ("setup_area_detectors", setup_area_detectors)]

/-- Embedding of `_custom_controls_setup`: the eight steps through the
sequencer, between the two `logger.info` records (the closing record is
not reached when a failure propagates). -/
def custom_controls_setup (s : Sys) : SeqOut :=
  let r := runSeq setupFunctions s
  match r.err with
  | none =>
    ⟨r.invoked,
     Event.logInfo "Starting custom controls setup." :: r.events ++
       [Event.logInfo "Local controls setup finished."], r.sys, none⟩
  | some e =>
    ⟨r.invoked,
     Event.logInfo "Starting custom controls setup." :: r.events, r.sys,
     some e⟩

/-- `numpy.arange(start, stop, step)` over exact rationals: the values
`start + k*step` for `k < ⌈(stop - start)/step⌉` (empty when that
ceiling is not positive). -/
def np_arange (start stop step : ℚ) : List ℚ :=
  (List.range (Int.ceil ((stop - start) / step)).toNat).map
    (fun k : ℕ => start + (k : ℚ) * step)

/-- `numpy.round` to the nearest integer with ties to even. -/
def roundHalfEven (x : ℚ) : ℤ :=
  let f := Int.floor x
  let r := x - f
  if r < 1 / 2 then f
  else if 1 / 2 < r then f + 1
  else if f % 2 = 0 then f else f + 1

/-- `numpy.round(x, 4)` over exact rationals. -/
def np_round4 (x : ℚ) : ℚ := (roundHalfEven (x * 10000) : ℚ) / 10000

/-- Embedding of `rate_effect`: the `scaler1` lookup happens once,
before the loop; then for each rate of
`np.arange(first, last + step/10, step)` one `update_rate` write and one
`bp.count` batch of `npts` repeats whose metadata records
`TP = np.round(preset_time, 4)` and `RATE = np.round(rate, 4)`. -/
def rate_effect (first last step : ℚ) (npts : Nat) (s : Sys) :
    List Event × Option Exc :=
  match findDev s "scaler1" with
  | none => ([], some Exc.componentNotFound)
  | some _ =>
    ((np_arange first (last + step / 10) step).flatMap (fun rate =>
      [Event.write "scaler1" "update_rate" (Val.num rate),
       Event.countBatch "scaler1" npts (np_round4 s.presetTime)
         (np_round4 rate)]), none)

/-- Is this event a write to one of the six `chname` fields of
`scaler1`? -/
def isChnameWrite (e : Event) : Bool :=
  match e with
  | Event.write "scaler1" f _ =>
    ["channels.chan01.chname", "channels.chan02.chname",
     "channels.chan03.chname", "channels.chan04.chname",
     "channels.chan05.chname", "channels.chan06.chname"].contains f
  | _ => false

/-- Is this event a `bps.sleep`? -/
def isSleep (e : Event) : Bool :=
  match e with
  | Event.sleep _ => true
  | _ => false

/-- Is this event a write to a `steps_per_revolution` field? -/
def isSrevWrite (e : Event) : Bool :=
  match e with
  | Event.write _ f _ => f == "steps_per_revolution"
  | _ => false

/-- Number of events writing `1` to the `enable` field of device `k`. -/
def countEnableWrites (k : String) (evs : List Event) : Nat :=
  (evs.filter (fun e => decide (e = Event.write k "enable" (Val.num 1)))).length

/-- A system state with an empty registry: every lookup fails with
`ComponentNotFound`. -/
def emptySys : Sys := ⟨[], "", [], [], 1⟩

/-- A state where `dcm` is present and connected but its
`into_control_range` operation raises a failure that is neither
not-found nor timeout. -/
def dcmOpFailSys : Sys :=
  ⟨[⟨"dcm", [], true, false⟩], "", [], [("dcm.into_control_range", Exc.other)], 1⟩

/-- Registry entry used by the area-detector witness state. -/
def adTransformEntry : RegEntry := ⟨"ad_transform", [], true, false⟩

/-- Registry entry used by the area-detector witness state. -/
def adsimdetEntry : RegEntry := ⟨"adsimdet", [], true, false⟩

/-- A state where both area detectors are present and connected but the
dithering sub-step raises an arbitrary failure. -/
def adChainFailSys : Sys :=
  ⟨[adTransformEntry, adsimdetEntry], "", [],
   [("dither_ad_peak_position", Exc.other)], 1⟩

/-- Registry entry used by the scaler witness states. -/
def scaler1Entry : RegEntry := ⟨"scaler1", [], true, false⟩

/-- A state where `scaler1` is present, connected, and its first channel
is still unnamed. -/
def scalerSys : Sys := ⟨[scaler1Entry], "", [], [], 1⟩

/-- A state where two of the four optional calc subsystems are present. -/
def calcsSys : Sys :=
  ⟨[⟨"user_calcs", [], true, false⟩, ⟨"user_sseqs", [], true, false⟩],
   "", [], [], 1⟩

/-- A state with one motor exposing `steps_per_revolution` and one
motor without it. -/
def motorSys : Sys :=
  ⟨[⟨"m1", ["motor"], true, true⟩, ⟨"m2", ["motor"], true, false⟩],
   "", [], [], 1⟩

/-! ## Sequencer lemmas -/

/-- Unfolding `runSeq` when the head step succeeds. -/
theorem runSeq_cons_ok (n : String) (f : Sys → StepOut)
    (rest : List (String × (Sys → StepOut))) (s : Sys)
    (he : (f s).err = none) :
    runSeq ((n, f) :: rest) s =
      ⟨n :: (runSeq rest (f s).sys).invoked,
       (f s).events ++ (runSeq rest (f s).sys).events,
       (runSeq rest (f s).sys).sys, (runSeq rest (f s).sys).err⟩ := by
  simp only [runSeq, he]

/-- Unfolding `runSeq` when the head step raises a caught failure kind:
the warning is logged and the remaining steps still run. -/
theorem runSeq_cons_nonfatal (n : String) (f : Sys → StepOut)
    (rest : List (String × (Sys → StepOut))) (s : Sys) (e : Exc)
    (he : (f s).err = some e) (hn : nonfatal e = true) :
    runSeq ((n, f) :: rest) s =
      ⟨n :: (runSeq rest (f s).sys).invoked,
       (f s).events ++ seqWarning :: (runSeq rest (f s).sys).events,
       (runSeq rest (f s).sys).sys, (runSeq rest (f s).sys).err⟩ := by
  simp only [runSeq, he, hn, if_true]

/-- Unfolding `runSeq` when the head step raises any other failure kind:
the failure propagates and no further step runs. -/
theorem runSeq_cons_fatal (n : String) (f : Sys → StepOut)
    (rest : List (String × (Sys → StepOut))) (s : Sys) (e : Exc)
    (he : (f s).err = some e) (hn : nonfatal e = false) :
    runSeq ((n, f) :: rest) s = ⟨[n], (f s).events, (f s).sys, some e⟩ := by
  simp only [runSeq, he, hn, Bool.false_eq_true, if_false]

/-- Whatever a step sequence does, its first step is always invoked. -/
theorem runSeq_invoked_head (n : String) (f : Sys → StepOut)
    (rest : List (String × (Sys → StepOut))) (s : Sys) :
    ∃ t, (runSeq ((n, f) :: rest) s).invoked = n :: t := by
  cases he : (f s).err with
  | none => exact ⟨_, by rw [runSeq_cons_ok n f rest s he]⟩
  | some e =>
    cases hn : nonfatal e with
    | true => exact ⟨_, by rw [runSeq_cons_nonfatal n f rest s e he hn]⟩
    | false => exact ⟨[], by rw [runSeq_cons_fatal n f rest s e he hn]⟩

/-- When no fatal failure occurs, every step of the sequence is invoked,
in list order. -/
theorem runSeq_invoked_of_err_none :
    ∀ (fs : List (String × (Sys → StepOut))) (s : Sys),
      (runSeq fs s).err = none →
      (runSeq fs s).invoked = fs.map Prod.fst := by
  intro fs
  induction fs with
  | nil => intro s _; rfl
  | cons p rest ih =>
    intro s h
    obtain ⟨n, f⟩ := p
    cases he : (f s).err with
    | none =>
      rw [runSeq_cons_ok n f rest s he] at h ⊢
      simp only [List.map_cons]
      exact congrArg (n :: ·) (ih _ h)
    | some e =>
      cases hn : nonfatal e with
      | true =>
        rw [runSeq_cons_nonfatal n f rest s e he hn] at h ⊢
        simp only [List.map_cons]
        exact congrArg (n :: ·) (ih _ h)
      | false =>
        rw [runSeq_cons_fatal n f rest s e he hn] at h
        exact absurd h (by simp)

/-- Decomposition of a sequencer run at an append boundary, when the
first part runs without a fatal failure. -/
theorem runSeq_append (a b : List (String × (Sys → StepOut))) (s : Sys)
    (h : (runSeq a s).err = none) :
    runSeq (a ++ b) s =
      ⟨(runSeq a s).invoked ++ (runSeq b (runSeq a s).sys).invoked,
       (runSeq a s).events ++ (runSeq b (runSeq a s).sys).events,
       (runSeq b (runSeq a s).sys).sys,
       (runSeq b (runSeq a s).sys).err⟩ := by
  induction a generalizing s with
  | nil => simp [runSeq]
  | cons p rest ih =>
    obtain ⟨n, f⟩ := p
    rw [List.cons_append]
    cases he : (f s).err with
    | none =>
      have h2 : (runSeq rest (f s).sys).err = none := by
        rw [runSeq_cons_ok n f rest s he] at h; exact h
      rw [runSeq_cons_ok n f (rest ++ b) s he, ih _ h2,
        runSeq_cons_ok n f rest s he]
      simp [List.append_assoc]
    | some e =>
      cases hn : nonfatal e with
      | true =>
        have h2 : (runSeq rest (f s).sys).err = none := by
          rw [runSeq_cons_nonfatal n f rest s e he hn] at h; exact h
        rw [runSeq_cons_nonfatal n f (rest ++ b) s e he hn, ih _ h2,
          runSeq_cons_nonfatal n f rest s e he hn]
        simp [List.append_assoc]
      | false =>
        rw [runSeq_cons_fatal n f rest s e he hn] at h
        exact absurd h (by simp)

/-! ## Claims about the sequencer -/

/-- C1: in the setup sequencer, a step that raises a not-found or
timeout failure has that failure caught and logged as a warning, and the
next step still executes; a step that raises any other failure kind
propagates it out of the sequencer and no step after it executes. -/
theorem sequencer_two_tier_policy
    (pre post : List (String × (Sys → StepOut))) (n : String)
    (f : Sys → StepOut) (s : Sys)
    (hpre : (runSeq pre s).err = none) :
    ((f (runSeq pre s).sys).err = some Exc.componentNotFound ∨
        (f (runSeq pre s).sys).err = some Exc.timeoutError →
      seqWarning ∈ (runSeq (pre ++ (n, f) :: post) s).events ∧
      (runSeq (pre ++ (n, f) :: post) s).invoked =
        (runSeq pre s).invoked ++
          n :: (runSeq post (f (runSeq pre s).sys).sys).invoked ∧
      (∀ m g post2, post = (m, g) :: post2 →
        m ∈ (runSeq (pre ++ (n, f) :: post) s).invoked)) ∧
    ((f (runSeq pre s).sys).err = some Exc.other →
      (runSeq (pre ++ (n, f) :: post) s).invoked =
        (runSeq pre s).invoked ++ [n] ∧
      (runSeq (pre ++ (n, f) :: post) s).err = some Exc.other) := by
  rw [runSeq_append pre ((n, f) :: post) s hpre]
  constructor
  · intro hnf
    have hex : ∃ e, (f (runSeq pre s).sys).err = some e ∧ nonfatal e = true := by
      rcases hnf with h | h
      · exact ⟨Exc.componentNotFound, h, rfl⟩
      · exact ⟨Exc.timeoutError, h, rfl⟩
    obtain ⟨e, he, hne⟩ := hex
    rw [runSeq_cons_nonfatal n f post (runSeq pre s).sys e he hne]
    refine ⟨by simp, rfl, ?_⟩
    intro m g post2 hp
    subst hp
    obtain ⟨t, ht⟩ :=
      runSeq_invoked_head m g post2 (f (runSeq pre s).sys).sys
    simp [ht]
  · intro ho
    rw [runSeq_cons_fatal n f post (runSeq pre s).sys Exc.other ho rfl]
    exact ⟨rfl, rfl⟩

/-- Witness for C1: after a successful `enable_user_calcs` step on a
state where `dcm` is present but its positioning operation raises a
non-tolerated failure, the policy theorem applies. -/
theorem sequencer_two_tier_policy_witness :
    (runSeq [("enable_user_calcs", enable_user_calcs)] dcmOpFailSys).err =
      none ∧
    (((setup_monochromator
        (runSeq [("enable_user_calcs", enable_user_calcs)]
          dcmOpFailSys).sys).err = some Exc.componentNotFound ∨
      (setup_monochromator
        (runSeq [("enable_user_calcs", enable_user_calcs)]
          dcmOpFailSys).sys).err = some Exc.timeoutError →
      seqWarning ∈ (runSeq ([("enable_user_calcs", enable_user_calcs)] ++
        ("setup_monochromator", setup_monochromator) ::
          [("setup_shutter", setup_shutter shutterDelayDefault)])
        dcmOpFailSys).events ∧
      (runSeq ([("enable_user_calcs", enable_user_calcs)] ++
        ("setup_monochromator", setup_monochromator) ::
          [("setup_shutter", setup_shutter shutterDelayDefault)])
        dcmOpFailSys).invoked =
        (runSeq [("enable_user_calcs", enable_user_calcs)]
          dcmOpFailSys).invoked ++
          "setup_monochromator" ::
            (runSeq [("setup_shutter", setup_shutter shutterDelayDefault)]
              (setup_monochromator
                (runSeq [("enable_user_calcs", enable_user_calcs)]
                  dcmOpFailSys).sys).sys).invoked ∧
      (∀ m g post2,
        [("setup_shutter", setup_shutter shutterDelayDefault)] =
          (m, g) :: post2 →
        m ∈ (runSeq ([("enable_user_calcs", enable_user_calcs)] ++
          ("setup_monochromator", setup_monochromator) ::
            [("setup_shutter", setup_shutter shutterDelayDefault)])
          dcmOpFailSys).invoked)) ∧
    ((setup_monochromator
        (runSeq [("enable_user_calcs", enable_user_calcs)]
          dcmOpFailSys).sys).err = some Exc.other →
      (runSeq ([("enable_user_calcs", enable_user_calcs)] ++
        ("setup_monochromator", setup_monochromator) ::
          [("setup_shutter", setup_shutter shutterDelayDefault)])
        dcmOpFailSys).invoked =
        (runSeq [("enable_user_calcs", enable_user_calcs)]
          dcmOpFailSys).invoked ++ ["setup_monochromator"] ∧
      (runSeq ([("enable_user_calcs", enable_user_calcs)] ++
        ("setup_monochromator", setup_monochromator) ::
          [("setup_shutter", setup_shutter shutterDelayDefault)])
        dcmOpFailSys).err = some Exc.other)) :=
  ⟨by decide,
   sequencer_two_tier_policy [("enable_user_calcs", enable_user_calcs)]
     [("setup_shutter", setup_shutter shutterDelayDefault)]
     "setup_monochromator" setup_monochromator dcmOpFailSys (by decide)⟩

/-- C2: when no failure propagates, the overall setup entry point
invokes exactly the eight setup steps, in the fixed source order, each
once. -/
theorem setup_sequence_fixed_order (s : Sys)
    (h : (custom_controls_setup s).err = none) :
    (custom_controls_setup s).invoked =
      ["enable_user_calcs", "change_motor_srev", "setup_scaler1",
       "change_noisy_signal_parameters", "setup_shutter",
       "setup_monochromator", "setup_temperature_positioner",
       "setup_area_detectors"] := by
  cases he : (runSeq setupFunctions s).err with
  | none =>
    simp only [custom_controls_setup, he]
    rw [runSeq_invoked_of_err_none setupFunctions s he]
    rfl
  | some e =>
    simp only [custom_controls_setup, he] at h
    exact absurd h (by simp)

/-- Witness for C2: on the empty registry every step fails with a
tolerated not-found failure, so the run completes and all eight steps
are invoked in order. -/
theorem setup_sequence_fixed_order_witness :
    (custom_controls_setup emptySys).err = none ∧
    (custom_controls_setup emptySys).invoked =
      ["enable_user_calcs", "change_motor_srev", "setup_scaler1",
       "change_noisy_signal_parameters", "setup_shutter",
       "setup_monochromator", "setup_temperature_positioner",
       "setup_area_detectors"] :=
  ⟨by decide, setup_sequence_fixed_order emptySys (by decide)⟩

/-! ## Claims about the area-detector step and the noisy signal -/

/-- Counterexample to C3 as stated: with `ad_transform` absent from the
registry, the area-detector step does not return normally — the failed
device lookup propagates a `ComponentNotFound` failure to the caller,
because the lookups and connection waits happen before the step's
`try:` block. -/
theorem area_detector_lookup_failure_propagates :
    (setup_area_detectors emptySys).err = some Exc.componentNotFound := by
  decide

/-- C3 (amended): once both area-detector devices are found and
connected, every failure arising in the simulation-setup chain (the
imports and the three sub-steps) is caught and logged, and the step
returns normally — whatever failure kind the chain raises. -/
theorem area_detector_chain_failures_swallowed (s : Sys)
    (adt adet : RegEntry)
    (h1 : findDev s "ad_transform" = some adt)
    (h2 : findDev s "adsimdet" = some adet)
    (hc1 : adt.connects = true) (hc2 : adet.connects = true) :
    (setup_area_detectors s).err = none := by
  simp only [setup_area_detectors, h1, h2, hc1, hc2, if_true]

/-- Witness for the amended C3: both devices present and connected, the
dithering sub-step raising a non-tolerated failure kind; the step still
returns normally. -/
theorem area_detector_chain_failures_swallowed_witness :
    findDev adChainFailSys "ad_transform" = some adTransformEntry ∧
    findDev adChainFailSys "adsimdet" = some adsimdetEntry ∧
    adTransformEntry.connects = true ∧
    adsimdetEntry.connects = true ∧
    (setup_area_detectors adChainFailSys).err = none :=
  ⟨by decide, by decide, rfl, rfl,
   area_detector_chain_failures_swallowed adChainFailSys adTransformEntry
     adsimdetEntry (by decide) (by decide) rfl rfl⟩

/-- Counterexample to C4 as stated: the claim quantifies over every
input bound, but at the bound `fwhm = 0` (with the other bounds at their
defaults and a legitimate draw of `0` for each parameter) the width is
`0`, which does not lie in the half-open interval `[0, fwhm) = [0, 0)`. -/
theorem noisy_width_range_fails_at_zero_fwhm :
    ¬ (0 ≤ (noisyParams 0 peakDefault noiseDefault 0 0 0 0).width ∧
        (noisyParams 0 peakDefault noiseDefault 0 0 0 0).width < 0) := by
  simp only [noisyParams]
  norm_num

/-- C4 (amended): for every positive bounds `fwhm`, `peak`, `noise`
(in particular the defaults 0.15, 10000, 0.08) and for every four
independent draws in `[0,1)`, the parameters handed to
`setup_lorentzian_swait` satisfy `center ∈ [-1,1)`, `width ∈ [0,fwhm)`,
`scale ∈ [9·peak, 10·peak)` and `noise ∈ [0.01·noise, 1.01·noise)`. -/
theorem noisy_parameters_in_range (fwhm peak noise r1 r2 r3 r4 : ℚ)
    (hf : 0 < fwhm) (hp : 0 < peak) (hn : 0 < noise)
    (h1 : 0 ≤ r1 ∧ r1 < 1) (h2 : 0 ≤ r2 ∧ r2 < 1)
    (h3 : 0 ≤ r3 ∧ r3 < 1) (h4 : 0 ≤ r4 ∧ r4 < 1) :
    (-1 ≤ (noisyParams fwhm peak noise r1 r2 r3 r4).center ∧
      (noisyParams fwhm peak noise r1 r2 r3 r4).center < 1) ∧
    (0 ≤ (noisyParams fwhm peak noise r1 r2 r3 r4).width ∧
      (noisyParams fwhm peak noise r1 r2 r3 r4).width < fwhm) ∧
    (9 * peak ≤ (noisyParams fwhm peak noise r1 r2 r3 r4).scale ∧
      (noisyParams fwhm peak noise r1 r2 r3 r4).scale < 10 * peak) ∧
    (1 / 100 * noise ≤ (noisyParams fwhm peak noise r1 r2 r3 r4).noise ∧
      (noisyParams fwhm peak noise r1 r2 r3 r4).noise <
        101 / 100 * noise) := by
  obtain ⟨h1a, h1b⟩ := h1
  obtain ⟨h2a, h2b⟩ := h2
  obtain ⟨h3a, h3b⟩ := h3
  obtain ⟨h4a, h4b⟩ := h4
  simp only [noisyParams]
  refine ⟨⟨by linarith, by linarith⟩, ⟨?_, ?_⟩, ⟨?_, ?_⟩, ⟨?_, ?_⟩⟩
  · exact mul_nonneg hf.le h2a
  · nlinarith
  · nlinarith
  · nlinarith
  · nlinarith
  · nlinarith

/-- Witness for the amended C4: the default bounds with each draw at
`1/2`. -/
theorem noisy_parameters_in_range_witness :
    (0 < fwhmDefault ∧ 0 < peakDefault ∧ 0 < noiseDefault ∧
      (0 ≤ (1 / 2 : ℚ) ∧ (1 / 2 : ℚ) < 1)) ∧
    ((-1 ≤ (noisyParams fwhmDefault peakDefault noiseDefault
        (1 / 2) (1 / 2) (1 / 2) (1 / 2)).center ∧
      (noisyParams fwhmDefault peakDefault noiseDefault
        (1 / 2) (1 / 2) (1 / 2) (1 / 2)).center < 1) ∧
    (0 ≤ (noisyParams fwhmDefault peakDefault noiseDefault
        (1 / 2) (1 / 2) (1 / 2) (1 / 2)).width ∧
      (noisyParams fwhmDefault peakDefault noiseDefault
        (1 / 2) (1 / 2) (1 / 2) (1 / 2)).width < fwhmDefault) ∧
    (9 * peakDefault ≤ (noisyParams fwhmDefault peakDefault noiseDefault
        (1 / 2) (1 / 2) (1 / 2) (1 / 2)).scale ∧
      (noisyParams fwhmDefault peakDefault noiseDefault
        (1 / 2) (1 / 2) (1 / 2) (1 / 2)).scale < 10 * peakDefault) ∧
    (1 / 100 * noiseDefault ≤
        (noisyParams fwhmDefault peakDefault noiseDefault
          (1 / 2) (1 / 2) (1 / 2) (1 / 2)).noise ∧
      (noisyParams fwhmDefault peakDefault noiseDefault
        (1 / 2) (1 / 2) (1 / 2) (1 / 2)).noise <
        101 / 100 * noiseDefault)) :=
  ⟨⟨by norm_num [fwhmDefault], by norm_num [peakDefault],
    by norm_num [noiseDefault], by norm_num⟩,
   noisy_parameters_in_range fwhmDefault peakDefault noiseDefault
     (1 / 2) (1 / 2) (1 / 2) (1 / 2) (by norm_num [fwhmDefault])
     (by norm_num [peakDefault]) (by norm_num [noiseDefault])
     (by norm_num) (by norm_num) (by norm_num) (by norm_num)⟩

/-! ## Claim about the scaler step -/

/-- Auxiliary: a string has length zero exactly when it is empty. -/
theorem string_length_eq_zero_iff (t : String) : t.length = 0 ↔ t = "" := by
  cases t with
  | mk data => simp [String.length, String.ext_iff]

/-- C5: when channel 1 of the scaler already has a non-empty name, the
step performs no channel-name write and no delay; when it is unnamed,
the step performs exactly the six channel-name writes of the fixed
mapping, immediately followed by the fixed 1-time-unit delay, before the
rest of the step continues. -/
theorem scaler_channel_naming_idempotent (s : Sys) (e : RegEntry)
    (hfind : findDev s "scaler1" = some e) (hc : e.connects = true) :
    (s.chan01Name ≠ "" →
      (setup_scaler1 s).events.filter isChnameWrite = [] ∧
      (setup_scaler1 s).events.filter isSleep = []) ∧
    (s.chan01Name = "" →
      (setup_scaler1 s).events.filter isChnameWrite = chnameWrites ∧
      ∃ l2, (setup_scaler1 s).events =
        [Event.logInfo "setup_scaler1()",
         Event.waitForConnection "scaler1",
         Event.logDebug "Setup custom scaler channels",
         Event.logInfo
           "scaler1 has no channel names. Assigning channel names."] ++
          chnameWrites ++ [Event.sleep 1] ++ l2) := by
  constructor
  · intro hne
    have hlen : ¬ s.chan01Name.length = 0 := by
      rw [string_length_eq_zero_iff]; exact hne
    have hev : (setup_scaler1 s).events =
        [Event.logInfo "setup_scaler1()"] ++
        [Event.waitForConnection "scaler1",
         Event.logDebug "Setup custom scaler channels"] ++
        [] ++
        [Event.callOp "scaler1.select_channels" [],
         Event.write "scaler1" "update_rate" (Val.num 20),
         Event.write "scaler1" "channels.chan02.override_signal_name"
           (Val.str "noisy")] ++
        registerEvents := by
      simp only [setup_scaler1, hfind]
      rw [if_pos hc, if_neg hlen]
    rw [hev]
    exact ⟨rfl, rfl⟩
  · intro heq
    have hlen : s.chan01Name.length = 0 := by
      rw [string_length_eq_zero_iff]; exact heq
    have hev : (setup_scaler1 s).events =
        [Event.logInfo "setup_scaler1()"] ++
        [Event.waitForConnection "scaler1",
         Event.logDebug "Setup custom scaler channels"] ++
        (Event.logInfo
            "scaler1 has no channel names. Assigning channel names." ::
          chnameWrites ++ [Event.sleep 1]) ++
        [Event.callOp "scaler1.select_channels" [],
         Event.write "scaler1" "update_rate" (Val.num 20),
         Event.write "scaler1" "channels.chan02.override_signal_name"
           (Val.str "noisy")] ++
        registerEvents := by
      simp only [setup_scaler1, hfind]
      rw [if_pos hc, if_pos hlen]
    rw [hev]
    refine ⟨rfl, ⟨[Event.callOp "scaler1.select_channels" [],
      Event.write "scaler1" "update_rate" (Val.num 20),
      Event.write "scaler1" "channels.chan02.override_signal_name"
        (Val.str "noisy")] ++ registerEvents, ?_⟩⟩
    simp [chnameWrites, List.append_assoc]

/-- Witness for C5: `scaler1` present and connected with an unnamed
first channel. -/
theorem scaler_channel_naming_idempotent_witness :
    findDev scalerSys "scaler1" = some scaler1Entry ∧
    scaler1Entry.connects = true ∧
    ((scalerSys.chan01Name ≠ "" →
      (setup_scaler1 scalerSys).events.filter isChnameWrite = [] ∧
      (setup_scaler1 scalerSys).events.filter isSleep = []) ∧
    (scalerSys.chan01Name = "" →
      (setup_scaler1 scalerSys).events.filter isChnameWrite = chnameWrites ∧
      ∃ l2, (setup_scaler1 scalerSys).events =
        [Event.logInfo "setup_scaler1()",
         Event.waitForConnection "scaler1",
         Event.logDebug "Setup custom scaler channels",
         Event.logInfo
           "scaler1 has no channel names. Assigning channel names."] ++
          chnameWrites ++ [Event.sleep 1] ++ l2)) :=
  ⟨rfl, rfl,
   scaler_channel_naming_idempotent scalerSys scaler1Entry rfl rfl⟩

/-! ## Claim about the enable-calcs step -/

/-- When every registered device connects, the enable loop raises no
failure. -/
theorem enableLoop_err_none (s : Sys)
    (hc : ∀ e ∈ s.registry, e.connects = true) :
    ∀ ks, (enableLoop s ks).2 = none := by
  intro ks
  induction ks with
  | nil => rfl
  | cons k ks ih =>
    cases hf : findDev s k with
    | none => simpa [enableLoop, hf] using ih
    | some e =>
      have hce : e.connects = true := by
        apply hc
        unfold findDev at hf
        exact List.mem_of_find?_eq_some hf
      simp [enableLoop, hf, hce, ih]

/-- The enable loop writes the enable flag of key `k` once per
occurrence of `k` in the key list when `k` resolves, and never when it
does not. -/
theorem enableLoop_count (s : Sys)
    (hc : ∀ e ∈ s.registry, e.connects = true) (k : String) :
    ∀ ks, countEnableWrites k (enableLoop s ks).1 =
      if (findDev s k).isSome then ks.count k else 0 := by
  intro ks
  induction ks with
  | nil => simp [enableLoop, countEnableWrites]
  | cons q ks ih =>
    cases hf : findDev s q with
    | none =>
      by_cases hkq : k = q
      · subst hkq
        simp [enableLoop, hf, ih]
      · simp [enableLoop, hf, ih, List.count_cons, hkq]
    | some e =>
      have hce : e.connects = true := by
        apply hc
        unfold findDev at hf
        exact List.mem_of_find?_eq_some hf
      by_cases hkq : k = q
      · subst hkq
        simp only [enableLoop, hf, hce, if_true, List.count_cons,
          countEnableWrites, List.filter_cons]
        simp [hf]
        simpa [countEnableWrites, hf] using ih
      · simp only [enableLoop, hf, hce, if_true, List.count_cons,
          countEnableWrites, List.filter_cons]
        simp [hkq, Ne.symm hkq]
        simpa [countEnableWrites] using ih

/-- When key `k` is in the list and resolves, the enable loop's trace
contains the contiguous wait / log / write block for `k`. -/
theorem enableLoop_block (s : Sys)
    (hc : ∀ e ∈ s.registry, e.connects = true) (k : String) :
    ∀ ks, k ∈ ks → (findDev s k).isSome = true →
      ∃ l1 l2, (enableLoop s ks).1 =
        l1 ++ Event.waitForConnection k ::
          Event.logDebug ("Enable " ++ k) ::
          Event.write k "enable" (Val.num 1) :: l2 := by
  intro ks
  induction ks with
  | nil => intro h; exact absurd h (List.not_mem_nil k)
  | cons q ks ih =>
    intro hmem hsome
    by_cases hkq : k = q
    · subst hkq
      obtain ⟨e, he⟩ := Option.isSome_iff_exists.mp hsome
      have hce : e.connects = true := by
        apply hc
        unfold findDev at he
        exact List.mem_of_find?_eq_some he
      exact ⟨[], (enableLoop s ks).1, by simp [enableLoop, he, hce]⟩
    · have hmem2 : k ∈ ks := by
        rcases List.mem_cons.mp hmem with h | h
        · exact absurd h hkq
        · exact h
      obtain ⟨l1, l2, hl⟩ := ih hmem2 hsome
      cases hf : findDev s q with
      | none => exact ⟨l1, l2, by simp [enableLoop, hf, hl]⟩
      | some e =>
        have hce : e.connects = true := by
          apply hc
          unfold findDev at hf
          exact List.mem_of_find?_eq_some hf
        exact ⟨Event.waitForConnection q ::
          Event.logDebug ("Enable " ++ q) ::
          Event.write q "enable" (Val.num 1) :: l1, l2,
          by simp [enableLoop, hf, hce, hl]⟩

/-- C6: in the enable-calcs step (on a state where present devices
connect), each of the four named optional subsystems receives exactly
one enable write — preceded by its connection wait — when present in the
registry, and none when absent; an absent subsystem causes no failure. -/
theorem enable_calcs_optional_subsystems (s : Sys)
    (hc : ∀ e ∈ s.registry, e.connects = true) :
    (enable_user_calcs s).err = none ∧
    ∀ k ∈ userCalcKeys,
      ((findDev s k).isSome = true →
        countEnableWrites k (enable_user_calcs s).events = 1 ∧
        ∃ l1 l2, (enable_user_calcs s).events =
          l1 ++ Event.waitForConnection k ::
            Event.logDebug ("Enable " ++ k) ::
            Event.write k "enable" (Val.num 1) :: l2) ∧
      (findDev s k = none →
        countEnableWrites k (enable_user_calcs s).events = 0) := by
  have herr := enableLoop_err_none s hc userCalcKeys
  have hcnt1 : ∀ k, countEnableWrites k (enable_user_calcs s).events =
      countEnableWrites k (enableLoop s userCalcKeys).1 := by
    intro k
    simp [enable_user_calcs, countEnableWrites, List.filter_cons]
  constructor
  · simpa [enable_user_calcs] using herr
  · intro k hk
    have hcount := enableLoop_count s hc k userCalcKeys
    constructor
    · intro hsome
      constructor
      · rw [hcnt1, hcount, if_pos hsome]
        simp only [userCalcKeys, List.mem_cons, List.not_mem_nil,
          or_false] at hk
        rcases hk with rfl | rfl | rfl | rfl <;> rfl
      · obtain ⟨l1, l2, hl⟩ := enableLoop_block s hc k userCalcKeys hk hsome
        exact ⟨Event.logInfo "enable_user_calcs()" :: l1, l2,
          by simp [enable_user_calcs, hl]⟩
    · intro hnone
      rw [hcnt1, hcount, if_neg (by simp [hnone])]

/-- Witness for C6: `user_calcs` and `user_sseqs` present,
`user_calcouts` and `user_transforms` absent. -/
theorem enable_calcs_optional_subsystems_witness :
    (∀ e ∈ calcsSys.registry, e.connects = true) ∧
    ((enable_user_calcs calcsSys).err = none ∧
    ∀ k ∈ userCalcKeys,
      ((findDev calcsSys k).isSome = true →
        countEnableWrites k (enable_user_calcs calcsSys).events = 1 ∧
        ∃ l1 l2, (enable_user_calcs calcsSys).events =
          l1 ++ Event.waitForConnection k ::
            Event.logDebug ("Enable " ++ k) ::
            Event.write k "enable" (Val.num 1) :: l2) ∧
      (findDev calcsSys k = none →
        countEnableWrites k (enable_user_calcs calcsSys).events = 0)) :=
  ⟨by decide, enable_calcs_optional_subsystems calcsSys (by decide)⟩

/-! ## Claim about the motor-resolution step -/

/-- When every motor connects, the srev loop raises no failure and its
resolution writes are exactly one write of `srev` per motor exposing the
`steps_per_revolution` field, in enumeration order. -/
theorem srevLoop_writes (v : ℚ) :
    ∀ ms : List RegEntry, (∀ m ∈ ms, m.connects = true) →
      (srevLoop v ms).2 = none ∧
      (srevLoop v ms).1.filter isSrevWrite =
        (ms.filter (fun m => m.hasStepsPerRev)).map
          (fun m => Event.write m.name "steps_per_revolution" (Val.num v)) := by
  intro ms
  induction ms with
  | nil => intro _; exact ⟨rfl, rfl⟩
  | cons m ms ih =>
    intro hc
    have hcm : m.connects = true := hc m (List.mem_cons_self m ms)
    have hcs : ∀ x ∈ ms, x.connects = true := fun x hx =>
      hc x (List.mem_cons_of_mem m hx)
    obtain ⟨ih1, ih2⟩ := ih hcs
    cases hrev : m.hasStepsPerRev with
    | false => simpa [srevLoop, hrev] using ⟨ih1, ih2⟩
    | true =>
      constructor
      · simpa [srevLoop, hrev, hcm] using ih1
      · simp only [srevLoop, hrev, hcm, if_true, List.filter_cons]
        simp [isSrevWrite, ih2]

/-- C7: in the motor-resolution step (on a state where all motors
connect), exactly the motors exposing `steps_per_revolution` receive a
resolution write, the written value is the default 2000 when no override
is given, and motors without the field receive no write. -/
theorem motor_resolution_writes (s : Sys)
    (hc : ∀ m ∈ findAll s "motor", m.connects = true) :
    srevDefault = 2000 ∧
    (change_motor_srev srevDefault s).err = none ∧
    (change_motor_srev srevDefault s).events.filter isSrevWrite =
      ((findAll s "motor").filter (fun m => m.hasStepsPerRev)).map
        (fun m => Event.write m.name "steps_per_revolution"
          (Val.num srevDefault)) := by
  obtain ⟨h1, h2⟩ := srevLoop_writes srevDefault (findAll s "motor") hc
  refine ⟨rfl, ?_, ?_⟩
  · simpa [change_motor_srev] using h1
  · simpa [change_motor_srev, isSrevWrite] using h2

/-- Witness for C7: one motor with the `steps_per_revolution` field and
one without. -/
theorem motor_resolution_writes_witness :
    (∀ m ∈ findAll motorSys "motor", m.connects = true) ∧
    (srevDefault = 2000 ∧
    (change_motor_srev srevDefault motorSys).err = none ∧
    (change_motor_srev srevDefault motorSys).events.filter isSrevWrite =
      ((findAll motorSys "motor").filter (fun m => m.hasStepsPerRev)).map
        (fun m => Event.write m.name "steps_per_revolution"
          (Val.num srevDefault))) :=
  ⟨by decide, motor_resolution_writes motorSys (by decide)⟩

/-! ## Claim about the rate-effect sweep -/

/-- The swept rate values for `first=10, last=40, step=1`: the 31
integers 10, 11, ..., 40. -/
theorem np_arange_rate_values :
    np_arange 10 (40 + 1 / 10) 1 =
      (List.range 31).map (fun k : ℕ => (10 : ℚ) + k) := by
  unfold np_arange
  have hceil : Int.ceil ((((40 : ℚ) + 1 / 10) - 10) / 1) = 31 := by
    rw [Int.ceil_eq_iff]
    constructor <;> norm_num
  rw [hceil]
  simp [mul_one]

/-- `np.round(·, 4)` is exact on integer-valued rationals. -/
theorem np_round4_intCast (n : ℤ) : np_round4 (n : ℚ) = n := by
  simp only [np_round4, roundHalfEven]
  rw [show ((n : ℚ) * 10000) = ((n * 10000 : ℤ) : ℚ) by push_cast; ring]
  rw [Int.floor_intCast]
  rw [if_pos (by norm_num :
    ((n * 10000 : ℤ) : ℚ) - ((n * 10000 : ℤ) : ℚ) < 1 / 2)]
  push_cast
  field_simp

/-- Every swept rate is reproduced exactly by the metadata rounding. -/
theorem rate_values_round_exact :
    ∀ r ∈ np_arange 10 (40 + 1 / 10) 1, np_round4 r = r := by
  intro r hr
  rw [np_arange_rate_values] at hr
  simp only [List.mem_map, List.mem_range] at hr
  obtain ⟨k, hk, rfl⟩ := hr
  rw [show ((10 : ℚ) + k) = ((10 + (k : ℤ) : ℤ) : ℚ) by push_cast; ring]
  rw [np_round4_intCast]

/-- The swept rate values are strictly increasing. -/
theorem rate_values_sorted :
    (np_arange 10 (40 + 1 / 10) 1).Pairwise (· < ·) := by
  rw [np_arange_rate_values]
  refine List.Pairwise.map _ ?_ (List.pairwise_lt_range 31)
  intro a b hab
  have h : (a : ℚ) < b := by exact_mod_cast hab
  linarith

/-- Rounding that is exact on each rate can be dropped from the batch
metadata. -/
theorem rate_batches_round_exact (tp : ℚ) (npts : Nat) (l : List ℚ)
    (h : ∀ r ∈ l, np_round4 r = r) :
    l.flatMap (fun rate =>
      [Event.write "scaler1" "update_rate" (Val.num rate),
       Event.countBatch "scaler1" npts tp (np_round4 rate)]) =
    l.flatMap (fun rate =>
      [Event.write "scaler1" "update_rate" (Val.num rate),
       Event.countBatch "scaler1" npts tp rate]) := by
  induction l with
  | nil => rfl
  | cons a l ih =>
    simp only [List.flatMap_cons]
    rw [h a (List.mem_cons_self a l),
      ih (fun r hr => h r (List.mem_cons_of_mem a hr))]

/-- C8: with `first=10, last=40, step=1, npts=10` and `scaler1` present,
the sweep visits exactly the 31 rates 10, 11, ..., 40, in increasing
order, and each rate yields one rate write followed by one measurement
batch of 10 repeats whose metadata records that rate. -/
theorem rate_sweep_values (s : Sys) (e : RegEntry)
    (hfind : findDev s "scaler1" = some e) :
    np_arange 10 (40 + 1 / 10) 1 =
      (List.range 31).map (fun k : ℕ => (10 : ℚ) + k) ∧
    (np_arange 10 (40 + 1 / 10) 1).length = 31 ∧
    (np_arange 10 (40 + 1 / 10) 1).Pairwise (· < ·) ∧
    (rate_effect 10 40 1 10 s).2 = none ∧
    (rate_effect 10 40 1 10 s).1 =
      (np_arange 10 (40 + 1 / 10) 1).flatMap (fun rate =>
        [Event.write "scaler1" "update_rate" (Val.num rate),
         Event.countBatch "scaler1" 10 (np_round4 s.presetTime) rate]) := by
  refine ⟨np_arange_rate_values, ?_, rate_values_sorted, ?_, ?_⟩
  · rw [np_arange_rate_values]
    simp
  · simp [rate_effect, hfind]
  · simp only [rate_effect, hfind]
    exact rate_batches_round_exact (np_round4 s.presetTime) 10
      (np_arange 10 (40 + 1 / 10) 1) rate_values_round_exact

/-- Witness for C8: the scaler present in the registry. -/
theorem rate_sweep_values_witness :
    findDev scalerSys "scaler1" = some scaler1Entry ∧
    (np_arange 10 (40 + 1 / 10) 1 =
      (List.range 31).map (fun k : ℕ => (10 : ℚ) + k) ∧
    (np_arange 10 (40 + 1 / 10) 1).length = 31 ∧
    (np_arange 10 (40 + 1 / 10) 1).Pairwise (· < ·) ∧
    (rate_effect 10 40 1 10 scalerSys).2 = none ∧
    (rate_effect 10 40 1 10 scalerSys).1 =
      (np_arange 10 (40 + 1 / 10) 1).flatMap (fun rate =>
        [Event.write "scaler1" "update_rate" (Val.num rate),
         Event.countBatch "scaler1" 10 (np_round4 scalerSys.presetTime)
           rate])) :=
  ⟨rfl, rate_sweep_values scalerSys scaler1Entry rfl⟩

/-! ## Frame effect on the registry, and the sweep's lookup -/

/-- C9: every setup step except the scaler step leaves the registry's
membership unchanged; the scaler step is the one that inserts entries,
registering exactly the six channel sub-handles. -/
theorem registry_frame_effect (s : Sys) :
    (enable_user_calcs s).sys.registry = s.registry ∧
    (∀ v, (change_motor_srev v s).sys.registry = s.registry) ∧
    (∀ f p n, (change_noisy_signal_parameters f p n s).sys.registry =
      s.registry) ∧
    (∀ d, (setup_shutter d s).sys.registry = s.registry) ∧
    (setup_monochromator s).sys.registry = s.registry ∧
    (setup_temperature_positioner s).sys.registry = s.registry ∧
    (setup_area_detectors s).sys.registry = s.registry ∧
    scalerChannelEntries.length = 6 ∧
    ((setup_scaler1 s).err = none →
      (setup_scaler1 s).sys.registry = s.registry ++ scalerChannelEntries) := by
  refine ⟨rfl, fun v => rfl, ?_, ?_, ?_, ?_, ?_, rfl, ?_⟩
  · intro f p n
    unfold change_noisy_signal_parameters
    repeat' split <;> try rfl
  · intro d
    unfold setup_shutter
    repeat' split <;> try rfl
  · unfold setup_monochromator
    repeat' split <;> try rfl
  · unfold setup_temperature_positioner
    repeat' split <;> try rfl
  · unfold setup_area_detectors
    repeat' split <;> try rfl
  · intro h
    cases hf : findDev s "scaler1" with
    | none =>
      simp only [setup_scaler1, hf] at h
      exact Option.noConfusion h
    | some sc =>
      by_cases hcc : sc.connects = true
      · by_cases hch : s.chan01Name.length = 0
        · simp only [setup_scaler1, hf]
          rw [if_pos hcc, if_pos hch, if_pos hch]
        · simp only [setup_scaler1, hf]
          rw [if_pos hcc, if_neg hch, if_neg hch]
      · simp only [setup_scaler1, hf] at h
        rw [if_neg hcc] at h
        exact Option.noConfusion h

/-- Witness for C9: on a state with the scaler present, connected and
unnamed, the step succeeds and the registry grows by exactly the six
channel entries. -/
theorem registry_frame_effect_witness :
    (setup_scaler1 scalerSys).err = none ∧
    (setup_scaler1 scalerSys).sys.registry =
      scalerSys.registry ++ scalerChannelEntries :=
  ⟨rfl, (registry_frame_effect scalerSys).2.2.2.2.2.2.2.2 rfl⟩

/-- C10: the sweep's counter lookup happens before the loop: when
`scaler1` is absent from the registry, `rate_effect` fails with the
not-found failure having emitted no event — no rate write, no
measurement batch, no device state change. -/
theorem rate_effect_lookup_first (s : Sys) (first last step : ℚ)
    (npts : Nat) (h : findDev s "scaler1" = none) :
    rate_effect first last step npts s =
      ([], some Exc.componentNotFound) := by
  simp [rate_effect, h]

/-- Witness for C10: the empty registry. -/
theorem rate_effect_lookup_first_witness :
    findDev emptySys "scaler1" = none ∧
    rate_effect 10 40 1 10 emptySys = ([], some Exc.componentNotFound) :=
  ⟨rfl, rate_effect_lookup_first emptySys 10 40 1 10 rfl⟩
